import Mathlib

set_option maxRecDepth 8000

/-!
Shallow embedding of the order-management backend (Express + SQLite):
`src/db.js` (schema, constraints, the `update_stock_on_order` trigger),
`src/models/orderModel.js` (`OrderModel.create` / `updateStatus` / `cancel`),
`src/models/productModel.js` (`ProductModel.update` / `updateStock`),
and `src/utils/validation.js` (`businessValidators`, `sanitize`).

The relational store is modelled as association lists keyed by row id.
SQL `UPDATE ... WHERE id = ?` becomes `modifyRows`; `INSERT` becomes a
cons plus the AUTOINCREMENT counter.  A `BEGIN TRANSACTION` /
`ROLLBACK` pair is modelled by returning the pre-transaction state on
the error paths, exactly where the source calls
`db.rollbackTransaction()`.  JavaScript binary64 arithmetic on prices
is modelled by `fl`, round-to-nearest (ties to even) on ℚ, and
`parseInt` truncation by `jsParseInt`.
-/

/-- Status column of `users` (db.js CHECK constraint). -/
inductive UserStatus
  | active
  | inactive
  | suspended
deriving DecidableEq

/-- Status column of `products` (db.js CHECK constraint). -/
inductive ProductStatus
  | available
  | out_of_stock
  | discontinued
deriving DecidableEq

/-- Status column of `orders` (db.js CHECK constraint). -/
inductive OrderStatus
  | pending
  | confirmed
  | shipped
  | delivered
  | cancelled
deriving DecidableEq

/-- The SQL text of a product status, as interpolated into error messages. -/
def ProductStatus.str : ProductStatus → String
  | .available => "available"
  | .out_of_stock => "out_of_stock"
  | .discontinued => "discontinued"

/-- The SQL text of an order status, as interpolated into error messages. -/
def OrderStatus.str : OrderStatus → String
  | .pending => "pending"
  | .confirmed => "confirmed"
  | .shipped => "shipped"
  | .delivered => "delivered"
  | .cancelled => "cancelled"

/-- A row of the `products` table (db.js).  `price` is a binary64
value stored in a REAL column, modelled as the exact rational it
denotes; `stockQuantity` is an INTEGER column. -/
structure Product where
  name : String
  description : Option String
  price : ℚ
  category : String
  stockQuantity : Int
  sku : Option String
  status : ProductStatus
deriving DecidableEq

/-- A row of the `orders` table (db.js), without the timestamp columns
(no claim concerns them). -/
structure Order where
  userId : Nat
  productId : Nat
  quantity : Int
  unitPrice : ℚ
  totalPrice : ℚ
  status : OrderStatus
  notes : Option String
deriving DecidableEq

/-- The database: the three tables keyed by row id, plus the
AUTOINCREMENT counter for `orders`.  Of a `users` row only the
`status` column is read by the code under proof
(`businessValidators.userExists` selects `id, status`). -/
structure DBState where
  users : List (Nat × UserStatus)
  products : List (Nat × Product)
  orders : List (Nat × Order)
  nextOrderId : Nat
deriving DecidableEq

/-- `SELECT ... WHERE id = ?` on an association list: first row whose
key matches. -/
def lookupRow {α : Type} : List (Nat × α) → Nat → Option α
  | [], _ => none
  | (k, v) :: rest, id => if id = k then some v else lookupRow rest id

/-- `UPDATE ... WHERE id = ?`: rewrite every row whose key matches,
computing the new row from the old one (SQL SET expressions read the
old column values). -/
def modifyRows {α : Type} : List (Nat × α) → Nat → (α → α) → List (Nat × α)
  | [], _, _ => []
  | (k, v) :: rest, id, f => (if k = id then (k, f v) else (k, v)) :: modifyRows rest id f

/-- Number of rows a `WHERE id = ?` statement touches (the
`result.changes` the sqlite3 driver reports). -/
def countRows {α : Type} : List (Nat × α) → Nat → Nat
  | [], _ => 0
  | (k, _) :: rest, id => (if k = id then 1 else 0) + countRows rest id

/-- Floor of log₂ computed with a halving counter (`fuel ≥ n` makes it
total and exact, and it reduces structurally, in log₂ n steps). -/
def natLog2F : ℕ → ℕ → ℕ
  | 0, _ => 0
  | fuel + 1, m => if m ≤ 1 then 0 else natLog2F fuel (m / 2) + 1

/-- Floor of log₂ n for n ≥ 1 (0 at 0). -/
def natLog2 (n : ℕ) : ℕ := natLog2F n n

/-- Whether 2^e ≤ num/den, by integer cross-multiplication. -/
def pow2LeQ (e : ℤ) (num : ℤ) (den : ℕ) : Bool :=
  if 0 ≤ e then (Int.ofNat (Nat.pow 2 e.toNat)) * (Int.ofNat den) ≤ num
  else (Int.ofNat den) ≤ (Int.ofNat (Nat.pow 2 (-e).toNat)) * num

/-- The binary exponent of a positive rational: the unique e with
2^e ≤ q < 2^(e+1). -/
def qExp2 (q : ℚ) : ℤ :=
  let e0 : ℤ := (natLog2 q.num.toNat : ℤ) - (natLog2 q.den : ℤ)
  if pow2LeQ e0 q.num q.den then e0 else e0 - 1

/-- Round the fraction a/b (with b > 0) to an integer, nearest, ties
to even — the rounding of IEEE-754 binary64 arithmetic. -/
def rnHalfEvenInt (a b : ℤ) : ℤ :=
  let n := a.fdiv b
  let r := a - n * b
  if 2 * r < b then n
  else if b < 2 * r then n + 1
  else if n % 2 = 0 then n else n + 1

/-- Round a positive rational to the nearest binary64 value: scale so
that the significand occupies 53 bits (unit in the last place 2^(e-52)
for 2^e ≤ q < 2^(e+1)), round half to even, scale back.  Monetary
values never leave the normal exponent range, so overflow and
subnormals are not modelled. -/
def flPos (q : ℚ) : ℚ :=
  let k : ℤ := 52 - qExp2 q
  if 0 ≤ k then
    mkRat (rnHalfEvenInt (q.num * Int.ofNat (Nat.pow 2 k.toNat)) (Int.ofNat q.den))
      (Nat.pow 2 k.toNat)
  else
    mkRat (rnHalfEvenInt q.num (Int.ofNat (q.den * Nat.pow 2 (-k).toNat)) *
      Int.ofNat (Nat.pow 2 (-k).toNat)) 1

/-- Round a rational to the nearest binary64 value: the result of one
JavaScript floating-point operation whose exact value is q. -/
def fl (q : ℚ) : ℚ :=
  if q = 0 then 0 else if q < 0 then - flPos (-q) else flPos q

/-- JavaScript `parseInt` applied to a (finite, plainly rendered)
number: truncation toward zero. -/
def jsParseInt (q : ℚ) : Int :=
  if q < 0 then ⌈q⌉ else ⌊q⌋

/-- validation.js `businessValidators.userExists`: SELECT id, status
FROM users WHERE id = ?, then `user && user.status === 'active'`. -/
def businessValidators.userExists (s : DBState) (userId : Nat) : Bool :=
  match lookupRow s.users userId with
  | some st => decide (st = UserStatus.active)
  | none => false

/-- The row `businessValidators.productAvailable` returns on success:
SELECT id, name, price, stockQuantity, status FROM products — exactly
these five columns. -/
structure ProductSnapshot where
  id : Nat
  name : String
  price : ℚ
  stockQuantity : Int
  status : ProductStatus
deriving DecidableEq

/-- Result shape of `businessValidators.productAvailable`:
`{available: false, reason}` or `{available: true, product}`. -/
inductive AvailResult
  | unavailable (reason : String)
  | available (product : ProductSnapshot)
deriving DecidableEq

/-- validation.js `businessValidators.productAvailable`. -/
def businessValidators.productAvailable (s : DBState) (productId : Nat)
    (requestedQuantity : Int) : AvailResult :=
  match lookupRow s.products productId with
  | none => .unavailable "Product not found"
  | some product =>
    if product.status ≠ ProductStatus.available then
      .unavailable ("Product is " ++ product.status.str)
    else if product.stockQuantity < requestedQuantity then
      .unavailable ("Insufficient stock. Available: " ++ toString product.stockQuantity ++
        ", Requested: " ++ toString requestedQuantity)
    else
      .available ⟨productId, product.name, product.price, product.stockQuantity, product.status⟩

/-- `productAvailable` as a state transformer: it issues a single
SELECT, so the database state it leaves behind is the one it was
given. -/
def businessValidators.productAvailableRun (s : DBState) (productId : Nat)
    (requestedQuantity : Int) : AvailResult × DBState :=
  (businessValidators.productAvailable s productId requestedQuantity, s)

/-- db.js trigger `update_stock_on_order` (AFTER INSERT ON orders):
UPDATE products SET stockQuantity = stockQuantity - NEW.quantity,
status = CASE WHEN stockQuantity - NEW.quantity <= 0 THEN
'out_of_stock' ELSE status END — both SET expressions read the old
row. -/
def update_stock_on_order (quantity : Int) (p : Product) : Product :=
  { p with
    stockQuantity := p.stockQuantity - quantity,
    status := if p.stockQuantity - quantity ≤ 0 then ProductStatus.out_of_stock else p.status }

/-- INSERT INTO orders plus the `update_stock_on_order` trigger, as
the single indivisible statement SQLite executes: it fails (`none`)
when a CHECK constraint (quantity > 0, stockQuantity ≥ 0) or a
foreign key is violated — the trigger's stock update aborting aborts
the insert with it. -/
def insertOrderRow (s : DBState) (user_id product_id : Nat) (quantity : Int)
    (unit_price total_price : ℚ) (notes : Option String) : Option (Nat × DBState) :=
  if quantity ≤ 0 then none
  else
    match lookupRow s.users user_id, lookupRow s.products product_id with
    | some _, some p =>
      if (update_stock_on_order quantity p).stockQuantity < 0 then none
      else
        let oid := s.nextOrderId
        let newRow : Nat × Order :=
          (oid, ⟨user_id, product_id, quantity, unit_price, total_price,
            OrderStatus.pending, notes⟩)
        let newProducts := modifyRows s.products product_id (update_stock_on_order quantity)
        let s2 : DBState :=
          { s with
            orders := newRow :: s.orders
            products := newProducts
            nextOrderId := oid + 1 }
        some (oid, s2)
    | _, _ => none

/-- Storage faults injected at the three fallible database calls of
`OrderModel.create` that run at or after the transaction body: the
INSERT, the COMMIT, and the post-commit SELECT
(`findByIdWithDetails`).  The calls before the transaction are reads
whose failure trivially leaves the state untouched. -/
structure CreateFaults where
  insertFails : Bool
  commitFails : Bool
  lookupFails : Bool
deriving DecidableEq

/-- The fault-free schedule: every database call succeeds. -/
def noFaults : CreateFaults := ⟨false, false, false⟩

/-- Outcome of `OrderModel.create`: the thrown error or the id of the
new order, together with the database state left behind. -/
inductive CreateResult
  | error (msg : String) (state : DBState)
  | ok (orderId : Nat) (state : DBState)
deriving DecidableEq

/-- orderModel.js `OrderModel.create`.  Input `quantity` is a JS
number (a non-numeric or missing input is rejected by the same guards
via NaN, which the ℚ model does not need to represent).  The
BEGIN/COMMIT/ROLLBACK pair of the source becomes: every error path up
to and including the COMMIT returns the entry state (ROLLBACK), while
a failure of the post-commit SELECT returns the committed state —
the inner catch does call ROLLBACK there too, but the transaction is
already committed and nothing is undone. -/
def OrderModel.create (s : DBState) (user_id product_id : Nat) (quantity : ℚ)
    (notes : Option String) (faults : CreateFaults) : CreateResult :=
  if user_id = 0 ∨ product_id = 0 ∨ quantity = 0 then
    .error "User ID, Product ID, and quantity are required" s
  else
    let numericQuantity : Int := jsParseInt quantity
    if numericQuantity ≤ 0 then
      .error "Quantity must be a positive integer" s
    else if businessValidators.userExists s user_id = false then
      .error "User not found or inactive" s
    else
      match businessValidators.productAvailable s product_id numericQuantity with
      | .unavailable reason => .error reason s
      | .available product =>
        let unit_price : ℚ := product.price
        let total_price : ℚ := fl (unit_price * (numericQuantity : ℚ))
        if faults.insertFails then .error "SQLITE_ERROR: INSERT failed" s
        else
          match insertOrderRow s user_id product_id numericQuantity unit_price
            total_price notes with
          | none => .error "SQLITE_CONSTRAINT" s
          | some (oid, s2) =>
            if faults.commitFails then .error "SQLITE_ERROR: COMMIT failed" s
            else if faults.lookupFails then .error "SQLITE_ERROR: SELECT failed" s2
            else .ok oid s2

/-- The database state a `CreateResult` carries. -/
def CreateResult.state : CreateResult → DBState
  | .error _ s => s
  | .ok _ s => s

/-- Whether a `CreateResult` is a success. -/
def CreateResult.isOk : CreateResult → Bool
  | .error _ _ => false
  | .ok _ _ => true

/-- Outcome of the other model operations: the thrown error or
success, with the database state left behind. -/
inductive OpResult
  | error (msg : String) (state : DBState)
  | ok (state : DBState)
deriving DecidableEq

/-- The database state an `OpResult` carries. -/
def OpResult.state : OpResult → DBState
  | .error _ s => s
  | .ok s => s

/-- Whether an `OpResult` is a success. -/
def OpResult.isOk : OpResult → Bool
  | .error _ _ => false
  | .ok _ => true

/-- orderModel.js `validTransitions` table in `updateStatus`. -/
def validTransitions : OrderStatus → List OrderStatus
  | .pending => [.confirmed, .cancelled]
  | .confirmed => [.shipped, .cancelled]
  | .shipped => [.delivered, .cancelled]
  | .delivered => []
  | .cancelled => []

/-- orderModel.js `OrderModel.updateStatus` (notes defaults to null):
look up the order, check the transition table, then UPDATE orders SET
status = ?, notes = ? WHERE id = ? — not inside a transaction, and
with no stock compensation. -/
def OrderModel.updateStatus (s : DBState) (id : Nat) (status : OrderStatus)
    (notes : Option String := none) : OpResult :=
  match lookupRow s.orders id with
  | none => .error ("Order with ID " ++ toString id ++ " not found") s
  | some existingOrder =>
    if (validTransitions existingOrder.status).contains status then
      let newOrders := modifyRows s.orders id
        (fun o => { o with status := status, notes := notes })
      let s2 := { s with orders := newOrders }
      if countRows s.orders id = 0 then
        .error ("Failed to update order status for ID " ++ toString id) s
      else .ok s2
    else
      .error ("Cannot change status from " ++ existingOrder.status.str ++ " to " ++ status.str) s

/-- The stock restoration UPDATE in `OrderModel.cancel`: stockQuantity
+= quantity, and status flips out_of_stock → available when the
restored quantity is positive (both SET expressions read the old
row). -/
def restoreStockRow (quantity : Int) (p : Product) : Product :=
  { p with
    stockQuantity := p.stockQuantity + quantity,
    status := if p.status = ProductStatus.out_of_stock ∧ 0 < p.stockQuantity + quantity
      then ProductStatus.available else p.status }

/-- orderModel.js `OrderModel.cancel` (reason defaults to null): look
up the order, reject terminal states, then inside one transaction set
status = cancelled with the reason as notes and restore the product's
stock. -/
def OrderModel.cancel (s : DBState) (id : Nat) (reason : Option String := none) : OpResult :=
  match lookupRow s.orders id with
  | none => .error ("Order with ID " ++ toString id ++ " not found") s
  | some order =>
    if order.status = OrderStatus.cancelled then .error "Order is already cancelled" s
    else if order.status = OrderStatus.delivered then .error "Cannot cancel delivered order" s
    else
      let newOrders := modifyRows s.orders id
        (fun o => { o with status := OrderStatus.cancelled, notes := reason })
      let newProducts := modifyRows s.products order.productId (restoreStockRow order.quantity)
      .ok { s with orders := newOrders, products := newProducts }

/-- productModel.js `ProductModel.updateStock` (operation defaults to
"subtract"): inside one transaction, read the product, compute the
new quantity, reject a negative subtraction result, then UPDATE with
status recomputed as out_of_stock exactly when the new quantity is 0
and available otherwise. -/
def ProductModel.updateStock (s : DBState) (id : Nat) (quantityChange : Int)
    (operation : String := "subtract") : OpResult :=
  match lookupRow s.products id with
  | none => .error ("Product with ID " ++ toString id ++ " not found") s
  | some product =>
    if operation = "add" then
      let newQuantity := product.stockQuantity + quantityChange
      let newStatus := if newQuantity = 0 then ProductStatus.out_of_stock
        else ProductStatus.available
      let newProducts := modifyRows s.products id
        (fun p => { p with stockQuantity := newQuantity, status := newStatus })
      let s2 := { s with products := newProducts }
      if countRows s.products id = 0 then
        .error ("Failed to update stock for product ID " ++ toString id) s
      else .ok s2
    else if operation = "subtract" then
      let newQuantity := product.stockQuantity - quantityChange
      if newQuantity < 0 then
        .error ("Insufficient stock. Available: " ++ toString product.stockQuantity ++
          ", Requested: " ++ toString quantityChange) s
      else
        let newStatus := if newQuantity = 0 then ProductStatus.out_of_stock
          else ProductStatus.available
        let newProducts := modifyRows s.products id
          (fun p => { p with stockQuantity := newQuantity, status := newStatus })
        let s2 := { s with products := newProducts }
        if countRows s.products id = 0 then
          .error ("Failed to update stock for product ID " ++ toString id) s
        else .ok s2
    else .error "Invalid operation. Use \x22add\x22 or \x22subtract\x22" s

/-- validation.js `sanitize.cleanString`: trim, then strip the
characters <, >, double quote and single quote. -/
def sanitize.cleanString (str : String) : String :=
  String.mk ((str.trim).toList.filter
    (fun c => ¬ (c = '<' ∨ c = '>' ∨ c = Char.ofNat 34 ∨ c = Char.ofNat 39)))

/-- validation.js `businessValidators.isSkuUnique`: SELECT id FROM
products WHERE sku = ? (AND id != ? when an id is excluded); unique
iff no row comes back. -/
def businessValidators.isSkuUnique (s : DBState) (sku : String)
    (excludeProductId : Option Nat) : Bool :=
  s.products.all (fun kv =>
    match excludeProductId with
    | some ex => decide (kv.1 = ex ∨ kv.2.sku ≠ some sku)
    | none => decide (kv.2.sku ≠ some sku))

/-- The `updateData` argument of productModel.js `ProductModel.update`:
each field independently absent (`none`) or supplied.  `description`
and `sku` distinguish a supplied null (`some none`) from absent, as
the source's `!== undefined` checks do; `stockQuantity` is the integer
`parseInt` produces from the validated input. -/
structure ProductUpdateData where
  name : Option String := none
  description : Option (Option String) := none
  price : Option ℚ := none
  category : Option String := none
  stockQuantity : Option Int := none
  status : Option ProductStatus := none
  sku : Option (Option String) := none
deriving DecidableEq

/-- The field merge of `ProductModel.update`: apply exactly the
fields the source copies into `sanitizedData`.  `name` and `category`
are skipped when falsy (empty string); `description`, `price`,
`stockQuantity`, `status` apply whenever present; the sku assignment
uses the pre-normalized value. -/
def applyProductUpdate (u : ProductUpdateData) (skuNorm : Option (Option String))
    (p : Product) : Product :=
  let p1 := match u.name with
    | some n => if n = "" then p else { p with name := sanitize.cleanString n }
    | none => p
  let p2 := match u.description with
    | some d => { p1 with description := d.map sanitize.cleanString }
    | none => p1
  let p3 := match u.price with
    | some pr => { p2 with price := pr }
    | none => p2
  let p4 := match u.category with
    | some c => if c = "" then p3 else { p3 with category := sanitize.cleanString c }
    | none => p3
  let p5 := match u.stockQuantity with
    | some sq => { p4 with stockQuantity := sq }
    | none => p4
  let p6 := match u.status with
    | some st => { p5 with status := st }
    | none => p5
  match skuNorm with
  | some sk => { p6 with sku := sk }
  | none => p6

/-- Whether `sanitizedData` ends up with at least one key — the
source's `updateFields.length === 0` test, negated. -/
def hasUpdateFields (u : ProductUpdateData) : Bool :=
  (match u.name with | some n => decide (n ≠ "") | none => false) ||
  u.description.isSome || u.price.isSome ||
  (match u.category with | some c => decide (c ≠ "") | none => false) ||
  u.stockQuantity.isSome || u.status.isSome || u.sku.isSome

/-- The tail of `ProductModel.update` after the sku uniqueness check:
the empty-field-set rejection, the UPDATE with the merged fields, and
the `changes === 0` check. -/
def ProductModel.applyUpdateRows (s : DBState) (id : Nat) (u : ProductUpdateData)
    (skuNorm : Option (Option String)) : OpResult :=
  if hasUpdateFields u = false then .error "No valid fields to update" s
  else
    let newProducts := modifyRows s.products id (applyProductUpdate u skuNorm)
    let s2 := { s with products := newProducts }
    if countRows s.products id = 0 then
      .error ("Failed to update product with ID " ++ toString id) s
    else .ok s2

/-- productModel.js `ProductModel.update`: look up the product,
normalize a supplied sku (uppercase + trim, falsy becomes null) and
pre-check its uniqueness, reject an empty field set, then UPDATE the
row with the merged fields.  Note that a supplied `stockQuantity` is
written as-is: `status` is not reconciled with it. -/
def ProductModel.update (s : DBState) (id : Nat) (u : ProductUpdateData) : OpResult :=
  match lookupRow s.products id with
  | none => .error ("Product with ID " ++ toString id ++ " not found") s
  | some _ =>
    let skuNorm : Option (Option String) := u.sku.map (fun v =>
      match v with
      | some str => if str = "" then none else some ((str.toUpper).trim)
      | none => none)
    match skuNorm with
    | some (some nsku) =>
      if businessValidators.isSkuUnique s nsku (some id) then
        ProductModel.applyUpdateRows s id u skuNorm
      else .error ("SKU " ++ nsku ++ " is already in use") s
    | _ => ProductModel.applyUpdateRows s id u skuNorm

/-- The Stock Ledger invariant of spec §3/§8 for one product row:
unless discontinued, status is out_of_stock exactly when the stock
is 0. -/
def stockStatusInvariant (p : Product) : Prop :=
  p.status ≠ ProductStatus.discontinued →
    (p.status = ProductStatus.out_of_stock ↔ p.stockQuantity = 0)

/-- Every product row of the state satisfies `stockStatusInvariant`. -/
def productsInvariant (s : DBState) : Prop :=
  ∀ pid p, lookupRow s.products pid = some p → stockStatusInvariant p

/-- Every product row has non-negative stock (the db.js CHECK
constraint). -/
def productsNonneg (s : DBState) : Prop :=
  ∀ pid p, lookupRow s.products pid = some p → 0 ≤ p.stockQuantity

/-- Every order row has positive quantity (the db.js CHECK
constraint). -/
def ordersPositive (s : DBState) : Prop :=
  ∀ oid o, lookupRow s.orders oid = some o → 1 ≤ o.quantity

/-- A product row used by the concrete scenarios: available, stock
5, price 10 (spec §8 scenario style). -/
def wProduct : Product :=
  { name := "MacBook Pro", description := none, price := 10, category := "general",
    stockQuantity := 5, sku := none, status := ProductStatus.available }

/-- One active user, one available product, no orders. -/
def baseState : DBState :=
  { users := [(1, UserStatus.active)], products := [(1, wProduct)], orders := [],
    nextOrderId := 1 }

/-- A pending order for 2 units of product 1, with stored notes. -/
def wOrder : Order :=
  { userId := 1, productId := 1, quantity := 2, unitPrice := 10, totalPrice := 20,
    status := OrderStatus.pending, notes := some "gift wrap" }

/-- State after such an order: the product's stock is already down to
3, and the pending order row exists. -/
def orderState : DBState :=
  { users := [(1, UserStatus.active)],
    products := [(1, { wProduct with stockQuantity := 3 })],
    orders := [(1, wOrder)], nextOrderId := 2 }

/-- Like `orderState`, but the order is already cancelled. -/
def cancelledState : DBState :=
  { users := [(1, UserStatus.active)],
    products := [(1, { wProduct with stockQuantity := 3 })],
    orders := [(1, { wOrder with status := OrderStatus.cancelled })], nextOrderId := 2 }

/-- A discontinued product with positive stock. -/
def discontinuedState : DBState :=
  { users := [(1, UserStatus.active)],
    products := [(1, { wProduct with status := ProductStatus.discontinued })],
    orders := [], nextOrderId := 1 }

/-- A sold-out product row: stock 0, status out_of_stock. -/
def oosProduct : Product :=
  { wProduct with stockQuantity := 0, status := ProductStatus.out_of_stock }

/-- A pending order against a product that the order's creation just
sold out. -/
def oosState : DBState :=
  { users := [(1, UserStatus.active)], products := [(1, oosProduct)],
    orders := [(1, wOrder)], nextOrderId := 2 }

/-- A product priced at the binary64 value JavaScript stores for the
decimal 19.99, with plenty of stock. -/
def priceState : DBState :=
  { users := [(1, UserStatus.active)],
    products := [(1, { wProduct with price := fl (1999 / 100), stockQuantity := 10 })],
    orders := [], nextOrderId := 1 }

theorem lookupRow_modifyRows {α : Type} (l : List (Nat × α)) (id : Nat) (f : α → α) (k : Nat) :
    lookupRow (modifyRows l id f) k =
      if k = id then (lookupRow l id).map f else lookupRow l k := by
  induction l with
  | nil => simp [lookupRow, modifyRows]
  | cons kv rest ih =>
    obtain ⟨k0, v⟩ := kv
    simp only [modifyRows]
    by_cases h0 : k0 = id
    · subst h0
      rw [if_pos rfl]
      by_cases hk : k = k0
      · subst hk
        simp [lookupRow]
      · simp only [lookupRow, if_neg hk, ih]
    · have h0' : ¬ id = k0 := fun h => h0 h.symm
      rw [if_neg h0]
      by_cases hk : k = k0
      · subst hk
        simp [lookupRow, h0, h0']
      · simp only [lookupRow, if_neg hk, ih, if_neg h0']

theorem countRows_ne_zero_of_lookup {α : Type} {l : List (Nat × α)} {id : Nat} {v : α}
    (h : lookupRow l id = some v) : countRows l id ≠ 0 := by
  induction l with
  | nil => simp [lookupRow] at h
  | cons kv rest ih =>
    obtain ⟨k0, v0⟩ := kv
    simp only [countRows]
    by_cases hk : k0 = id
    · simp [if_pos hk]
    · have hk' : ¬ id = k0 := fun h => hk h.symm
      simp only [lookupRow, if_neg hk'] at h
      simpa [if_neg hk] using ih h

/-- C3: for every stored order, `updateStatus` succeeds exactly on the
transitions of the table pending→{confirmed,cancelled},
confirmed→{shipped,cancelled}, shipped→{delivered,cancelled},
delivered→{}, cancelled→{} (writing the requested status), and any
transition outside the table is rejected with an error naming the
current→requested pair, leaving the database state — in particular
the order's status — unchanged. -/
theorem C3_status_state_machine (s : DBState) (id : Nat) (st : OrderStatus)
    (notes : Option String) (o : Order) (ho : lookupRow s.orders id = some o) :
    ((validTransitions o.status).contains st = true →
      (OrderModel.updateStatus s id st notes).isOk = true ∧
      lookupRow (OrderModel.updateStatus s id st notes).state.orders id =
        some { o with status := st, notes := notes }) ∧
    ((validTransitions o.status).contains st = false →
      OrderModel.updateStatus s id st notes =
        OpResult.error ("Cannot change status from " ++ o.status.str ++ " to " ++ st.str) s) := by
  constructor
  · intro hc
    have hcnt := countRows_ne_zero_of_lookup ho
    simp only [OrderModel.updateStatus, ho, hc, if_true, if_neg hcnt]
    exact ⟨rfl, by simp [OpResult.state, lookupRow_modifyRows, ho]⟩
  · intro hc
    simp only [OrderModel.updateStatus, ho, hc]
    rfl

/-- Witness for C3 at a concrete state: pending→confirmed is accepted
and pending→delivered is rejected with the pair in the message,
leaving the state untouched. -/
theorem C3_status_state_machine_witness :
    (OrderModel.updateStatus orderState 1 OrderStatus.confirmed none).isOk = true ∧
    OrderModel.updateStatus orderState 1 OrderStatus.delivered none =
      OpResult.error "Cannot change status from pending to delivered" orderState := by
  have h1 := C3_status_state_machine orderState 1 OrderStatus.confirmed none wOrder
    (by with_unfolding_all decide)
  have h2 := C3_status_state_machine orderState 1 OrderStatus.delivered none wOrder
    (by with_unfolding_all decide)
  exact ⟨(h1.1 (by with_unfolding_all decide)).1, h2.2 (by with_unfolding_all decide)⟩

/-- C10: a successful `updateStatus` always writes its notes argument
over the order's notes column (the UPDATE sets both status and
notes), and the argument defaults to null — so a legal status update
made without notes erases previously stored notes. -/
theorem C10_notes_overwritten (s : DBState) (id : Nat) (st : OrderStatus)
    (notes : Option String) (s2 : DBState)
    (h : OrderModel.updateStatus s id st notes = OpResult.ok s2) :
    lookupRow s2.orders id =
      (lookupRow s.orders id).map (fun o => { o with status := st, notes := notes }) ∧
    OrderModel.updateStatus s id st = OrderModel.updateStatus s id st none := by
  refine ⟨?_, rfl⟩
  unfold OrderModel.updateStatus at h
  split at h
  · exact absurd h (by simp)
  · rename_i o ho
    split at h
    · split at h
      · exact absurd h (by simp)
      · cases h
        simp [lookupRow_modifyRows, ho]
    · exact absurd h (by simp)

/-- Witness for C10: updating the concrete pending order (whose notes
column holds a value) to confirmed without a notes argument leaves the
order with null notes. -/
theorem C10_notes_overwritten_witness :
    lookupRow (OpResult.state (OrderModel.updateStatus orderState 1
        OrderStatus.confirmed)).orders 1 =
      some { wOrder with status := OrderStatus.confirmed, notes := none } := by
  have h := C10_notes_overwritten orderState 1 OrderStatus.confirmed none
    (OpResult.state (OrderModel.updateStatus orderState 1 OrderStatus.confirmed none))
    (by with_unfolding_all decide)
  rw [h.1]
  with_unfolding_all decide

/-- C9: `cancel` on an order whose status is cancelled or delivered is
rejected with the corresponding business-rule error before the
transaction opens, and the database state — the order's status and
the product's stockQuantity included — is exactly the entry state, so
stock is never restored twice. -/
theorem C9_cancel_terminal (s : DBState) (id : Nat) (reason : Option String) (o : Order)
    (ho : lookupRow s.orders id = some o)
    (hterm : o.status = OrderStatus.cancelled ∨ o.status = OrderStatus.delivered) :
    OrderModel.cancel s id reason =
      OpResult.error (if o.status = OrderStatus.cancelled then "Order is already cancelled"
        else "Cannot cancel delivered order") s := by
  rcases hterm with hs | hs
  · simp [OrderModel.cancel, ho, hs]
  · simp [OrderModel.cancel, ho, hs]

/-- Witness for C9: cancelling the concrete already-cancelled order is
rejected and returns the entry state unchanged. -/
theorem C9_cancel_terminal_witness :
    OrderModel.cancel cancelledState 1 none =
      OpResult.error "Order is already cancelled" cancelledState := by
  have h := C9_cancel_terminal cancelledState 1 none
    { wOrder with status := OrderStatus.cancelled } (by with_unfolding_all decide)
    (Or.inl rfl)
  simpa using h

/-- C2 (amended): the `cancel` operation on an order in a non-terminal
status restores the referenced product's stockQuantity by adding back
the order's quantity; but a status update to cancelled through
`updateStatus` — a legal transition from every non-terminal status —
changes only the order row and leaves every product row, in
particular the stock, untouched. -/
theorem C2_cancel_restores_stock (s : DBState) (id : Nat) (reason : Option String)
    (o : Order) (p : Product)
    (ho : lookupRow s.orders id = some o)
    (hnc : o.status ≠ OrderStatus.cancelled) (hnd : o.status ≠ OrderStatus.delivered)
    (hp : lookupRow s.products o.productId = some p) :
    ((OrderModel.cancel s id reason).isOk = true ∧
      (lookupRow (OrderModel.cancel s id reason).state.products o.productId).map
        Product.stockQuantity = some (p.stockQuantity + o.quantity)) ∧
    (∀ notes s2, OrderModel.updateStatus s id OrderStatus.cancelled notes = OpResult.ok s2 →
      s2.products = s.products) := by
  constructor
  · constructor
    · simp [OrderModel.cancel, ho, hnc, hnd, OpResult.isOk]
    · simp [OrderModel.cancel, ho, hnc, hnd, OpResult.state, lookupRow_modifyRows, hp,
        restoreStockRow]
  · intro notes s2 h
    unfold OrderModel.updateStatus at h
    split at h
    · exact absurd h (by simp)
    · split at h
      · split at h
        · exact absurd h (by simp)
        · cases h
          rfl
      · exact absurd h (by simp)

/-- Witness for C2 at the concrete state: cancelling the pending order
for 2 units brings the product's stock from 3 back to 5. -/
theorem C2_cancel_restores_stock_witness :
    (OrderModel.cancel orderState 1 none).isOk = true ∧
    (lookupRow (OrderModel.cancel orderState 1 none).state.products 1).map
      Product.stockQuantity = some 5 := by
  have h := C2_cancel_restores_stock orderState 1 none wOrder
    { wProduct with stockQuantity := 3 } (by with_unfolding_all decide)
    (by with_unfolding_all decide) (by with_unfolding_all decide)
    (by with_unfolding_all decide)
  refine ⟨h.1.1, ?_⟩
  have h2 := h.1.2
  have hpid : wOrder.productId = 1 := rfl
  rw [hpid] at h2
  rw [h2]
  with_unfolding_all decide

/-- Counterexample for C2 as stated: at the concrete state,
`updateStatus` to cancelled succeeds (pending → cancelled is in the
transition table) but the product's stockQuantity stays 3 — the
order's quantity of 2 is not added back by this path. -/
theorem C2_counterexample :
    (OrderModel.updateStatus orderState 1 OrderStatus.cancelled none).isOk = true ∧
    (lookupRow (OrderModel.updateStatus orderState 1 OrderStatus.cancelled
      none).state.products 1).map Product.stockQuantity = some 3 := by
  with_unfolding_all decide

/-- C5 (amended): a successful stock adjust writes newQ = current ±
delta and recomputes status as out_of_stock exactly when newQ = 0 and
as available whenever newQ ≠ 0 — regardless of the prior status, so a
prior out_of_stock becomes available, but a prior discontinued is
overwritten to available as well rather than left unchanged. -/
theorem C5_updateStock_status (s : DBState) (id : Nat) (delta : Int) (op : String)
    (p : Product) (s2 : DBState)
    (hp : lookupRow s.products id = some p)
    (h : ProductModel.updateStock s id delta op = OpResult.ok s2) :
    ∃ newQ : Int,
      ((op = "add" ∧ newQ = p.stockQuantity + delta) ∨
       (op = "subtract" ∧ newQ = p.stockQuantity - delta)) ∧
      (lookupRow s2.products id).map Product.stockQuantity = some newQ ∧
      (lookupRow s2.products id).map Product.status =
        some (if newQ = 0 then ProductStatus.out_of_stock else ProductStatus.available) := by
  unfold ProductModel.updateStock at h
  split at h
  · exact absurd h (by simp)
  · rename_i product hpr
    rw [hp] at hpr
    injection hpr with hpe
    subst hpe
    split at h
    · rename_i hop
      split at h
      · exact absurd h (by simp)
      · cases h
        refine ⟨p.stockQuantity + delta, Or.inl ⟨hop, rfl⟩, ?_, ?_⟩ <;>
          simp [lookupRow_modifyRows, hp]
    · split at h
      · rename_i hop
        split at h
        · simp only [] at h
          split at h <;> simp at h
        · simp only [] at h
          split at h
          · simp at h
          · cases h
            refine ⟨p.stockQuantity - delta, Or.inr ⟨hop, rfl⟩, ?_, ?_⟩ <;>
              simp [lookupRow_modifyRows, hp]
      · exact absurd h (by simp)

/-- Witness for C5: subtracting the full stock of the concrete
product flips its status to out_of_stock. -/
theorem C5_updateStock_status_witness :
    (lookupRow (ProductModel.updateStock baseState 1 5).state.products 1).map
      Product.status = some ProductStatus.out_of_stock := by
  have h := C5_updateStock_status baseState 1 5 "subtract" wProduct
    ((ProductModel.updateStock baseState 1 5).state) (by with_unfolding_all decide)
    (by with_unfolding_all decide)
  obtain ⟨newQ, hop, _, hst⟩ := h
  rcases hop with ⟨hbad, _⟩ | ⟨_, hnq⟩
  · exact absurd hbad (by decide)
  · subst hnq
    rw [hst]
    with_unfolding_all decide

/-- Counterexample for C5 as stated: adding 3 units to the concrete
discontinued product succeeds and sets its status to available — the
prior status discontinued is not left unchanged. -/
theorem C5_counterexample :
    (ProductModel.updateStock discontinuedState 1 3 "add").isOk = true ∧
    (lookupRow (ProductModel.updateStock discontinuedState 1 3 "add").state.products 1).map
      Product.status = some ProductStatus.available := by
  with_unfolding_all decide

/-- C6: `productAvailable` is a pure read (the state it leaves is the
state it was given) that fails closed: missing product → unavailable
with the not-found reason; status other than available → unavailable
with a reason naming that status; stock below the requested quantity
→ unavailable with a reason carrying both figures; otherwise
available with a snapshot of exactly id, name, price, stockQuantity
and status. -/
theorem C6_productAvailable_fails_closed (s : DBState) (pid : Nat) (q : Int) :
    (businessValidators.productAvailableRun s pid q).2 = s ∧
    (lookupRow s.products pid = none →
      businessValidators.productAvailable s pid q =
        AvailResult.unavailable "Product not found") ∧
    (∀ p, lookupRow s.products pid = some p → p.status ≠ ProductStatus.available →
      businessValidators.productAvailable s pid q =
        AvailResult.unavailable ("Product is " ++ p.status.str)) ∧
    (∀ p, lookupRow s.products pid = some p → p.status = ProductStatus.available →
      p.stockQuantity < q →
      businessValidators.productAvailable s pid q =
        AvailResult.unavailable ("Insufficient stock. Available: " ++
          toString p.stockQuantity ++ ", Requested: " ++ toString q)) ∧
    (∀ p, lookupRow s.products pid = some p → p.status = ProductStatus.available →
      ¬ p.stockQuantity < q →
      businessValidators.productAvailable s pid q =
        AvailResult.available ⟨pid, p.name, p.price, p.stockQuantity, p.status⟩) := by
  refine ⟨rfl, ?_, ?_, ?_, ?_⟩
  · intro h
    simp [businessValidators.productAvailable, h]
  · intro p hp hst
    simp [businessValidators.productAvailable, hp, hst]
  · intro p hp hst hlt
    simp [businessValidators.productAvailable, hp, hst, hlt]
  · intro p hp hst hge
    simp [businessValidators.productAvailable, hp, hst, hge]

/-- Witness for C6 at the concrete state: product 1 with stock 5 and
status available satisfies a request for 2 units and returns the
five-field snapshot. -/
theorem C6_productAvailable_fails_closed_witness :
    businessValidators.productAvailable baseState 1 2 =
      AvailResult.available ⟨1, wProduct.name, wProduct.price, wProduct.stockQuantity,
        wProduct.status⟩ := by
  have h := C6_productAvailable_fails_closed baseState 1 2
  exact h.2.2.2.2 wProduct (by with_unfolding_all decide) (by with_unfolding_all decide)
    (by with_unfolding_all decide)

theorem productAvailable_available {s : DBState} {pid : Nat} {q : Int}
    {snap : ProductSnapshot}
    (h : businessValidators.productAvailable s pid q = AvailResult.available snap) :
    ∃ p, lookupRow s.products pid = some p ∧ p.status = ProductStatus.available ∧
      ¬ p.stockQuantity < q ∧
      snap = ⟨pid, p.name, p.price, p.stockQuantity, p.status⟩ := by
  unfold businessValidators.productAvailable at h
  split at h
  · simp at h
  · rename_i p hp
    split at h
    · simp at h
    · rename_i hst
      split at h
      · simp at h
      · rename_i hlt
        cases h
        exact ⟨p, hp, by simpa using hst, hlt, rfl⟩

theorem insertOrderRow_ok {s : DBState} {uid pid : Nat} {qty : Int} {up tp : ℚ}
    {notes : Option String} {oid : Nat} {s2 : DBState}
    (h : insertOrderRow s uid pid qty up tp notes = some (oid, s2)) :
    ∃ p, lookupRow s.products pid = some p ∧ 0 < qty ∧
      ¬ (update_stock_on_order qty p).stockQuantity < 0 ∧
      s2.products = modifyRows s.products pid (update_stock_on_order qty) ∧
      s2.orders =
        (s.nextOrderId, ⟨uid, pid, qty, up, tp, OrderStatus.pending, notes⟩) :: s.orders := by
  unfold insertOrderRow at h
  split at h
  · simp at h
  · rename_i hqle
    split at h
    · rename_i aval p hu hp
      split at h
      · simp at h
      · rename_i hneg
        simp only [] at h
        cases h
        exact ⟨p, hp, by omega, hneg, rfl, rfl⟩
    · simp at h

theorem create_ok {s : DBState} {uid pid : Nat} {q : ℚ} {notes : Option String}
    {f : CreateFaults} {oid : Nat} {s2 : DBState}
    (h : OrderModel.create s uid pid q notes f = CreateResult.ok oid s2) :
    ∃ p, lookupRow s.products pid = some p ∧ p.status = ProductStatus.available ∧
      ¬ p.stockQuantity < jsParseInt q ∧ 0 < jsParseInt q ∧
      ¬ (update_stock_on_order (jsParseInt q) p).stockQuantity < 0 ∧
      s2.products = modifyRows s.products pid (update_stock_on_order (jsParseInt q)) ∧
      s2.orders = (s.nextOrderId, ⟨uid, pid, jsParseInt q, p.price,
        fl (p.price * (jsParseInt q : ℚ)), OrderStatus.pending, notes⟩) :: s.orders := by
  unfold OrderModel.create at h
  split at h
  · simp at h
  · simp only [] at h
    split at h
    · simp at h
    · split at h
      · simp at h
      · split at h
        · simp at h
        · rename_i snap havail
          obtain ⟨p, hp, hst, hge, hsnap⟩ := productAvailable_available havail
          subst hsnap
          split at h
          · simp at h
          · split at h
            · simp at h
            · rename_i oid2 s2b hins
              split at h
              · simp at h
              · split at h
                · simp at h
                · cases h
                  obtain ⟨p2, hp2, hqpos, hneg, hprod, hord⟩ := insertOrderRow_ok hins
                  rw [hp] at hp2
                  injection hp2 with hpe
                  subst hpe
                  exact ⟨p, hp, hst, hge, hqpos, hneg, hprod, hord⟩

theorem cancel_ok {s : DBState} {id : Nat} {reason : Option String} {s2 : DBState}
    (h : OrderModel.cancel s id reason = OpResult.ok s2) :
    ∃ o, lookupRow s.orders id = some o ∧ o.status ≠ OrderStatus.cancelled ∧
      o.status ≠ OrderStatus.delivered ∧
      s2.products = modifyRows s.products o.productId (restoreStockRow o.quantity) ∧
      s2.orders = modifyRows s.orders id
        (fun o0 => { o0 with status := OrderStatus.cancelled, notes := reason }) := by
  unfold OrderModel.cancel at h
  split at h
  · simp at h
  · rename_i o ho
    split at h
    · simp at h
    · rename_i hnc
      split at h
      · simp at h
      · rename_i hnd
        cases h
        exact ⟨o, ho, hnc, hnd, rfl, rfl⟩

theorem update_stock_invariant {p : Product} {qty : Int}
    (hst : p.status = ProductStatus.available)
    (hneg : ¬ (update_stock_on_order qty p).stockQuantity < 0) :
    stockStatusInvariant (update_stock_on_order qty p) := by
  intro _
  unfold update_stock_on_order at hneg ⊢
  simp only [] at hneg ⊢
  by_cases hle : p.stockQuantity - qty ≤ 0
  · rw [if_pos hle]
    constructor
    · intro _
      omega
    · intro _
      rfl
  · rw [if_neg hle, hst]
    constructor
    · intro habs
      exact absurd habs (by simp)
    · intro h0
      omega

theorem restore_stock_invariant {p : Product} {qty : Int}
    (hstock : 0 ≤ p.stockQuantity) (hq : 1 ≤ qty) :
    stockStatusInvariant (restoreStockRow qty p) := by
  intro _
  unfold restoreStockRow
  simp only []
  by_cases hoos : p.status = ProductStatus.out_of_stock ∧ 0 < p.stockQuantity + qty
  · rw [if_pos hoos]
    constructor
    · intro habs
      exact absurd habs (by simp)
    · intro h0
      omega
  · rw [if_neg hoos]
    constructor
    · intro hoos2
      exact absurd ⟨hoos2, by omega⟩ hoos
    · intro h0
      omega

theorem productsInvariant_modify {s : DBState} {pid : Nat} {f : Product → Product}
    (hinv : productsInvariant s)
    (hf : ∀ p, lookupRow s.products pid = some p → stockStatusInvariant (f p)) :
    ∀ pid2 p2, lookupRow (modifyRows s.products pid f) pid2 = some p2 →
      stockStatusInvariant p2 := by
  intro pid2 p2 hl
  rw [lookupRow_modifyRows] at hl
  by_cases hpe : pid2 = pid
  · rw [if_pos hpe] at hl
    cases hlp : lookupRow s.products pid with
    | none => rw [hlp] at hl; simp at hl
    | some p =>
      rw [hlp] at hl
      simp only [Option.map] at hl
      injection hl with hl
      subst hl
      exact hf p hlp
  · rw [if_neg hpe] at hl
    exact hinv pid2 p2 hl

/-- C4 (amended): immediately after a committed stock mutation made by
order creation's trigger decrement, by cancel's restore, or by the
stock adjust operation, every product row satisfies status =
out_of_stock iff stockQuantity = 0 (discontinued rows exempt),
provided every row satisfied it before (and rows obey the CHECK
constraints).  `ProductModel.update` is **not** in this list: it can
write stockQuantity without reconciling status and break the
invariant (see the counterexample). -/
theorem C4_stock_status_invariant :
    (∀ s uid pid q notes f oid s2, productsInvariant s →
      OrderModel.create s uid pid q notes f = CreateResult.ok oid s2 →
      productsInvariant s2) ∧
    (∀ s id reason s2, productsInvariant s → productsNonneg s → ordersPositive s →
      OrderModel.cancel s id reason = OpResult.ok s2 → productsInvariant s2) ∧
    (∀ s id delta op s2, productsInvariant s →
      ProductModel.updateStock s id delta op = OpResult.ok s2 → productsInvariant s2) := by
  refine ⟨?_, ?_, ?_⟩
  · intro s uid pid q notes f oid s2 hinv h
    obtain ⟨p, hp, hst, hge, hqpos, hneg, hprod, -⟩ := create_ok h
    intro pid2 p2 hl
    rw [hprod] at hl
    refine productsInvariant_modify hinv ?_ pid2 p2 hl
    intro p0 hp0
    rw [hp] at hp0
    injection hp0 with hp0
    subst hp0
    exact update_stock_invariant hst hneg
  · intro s id reason s2 hinv hnn hpos h
    obtain ⟨o, ho, -, -, hprod, -⟩ := cancel_ok h
    intro pid2 p2 hl
    rw [hprod] at hl
    refine productsInvariant_modify hinv ?_ pid2 p2 hl
    intro p0 hp0
    exact restore_stock_invariant (hnn _ _ hp0) (hpos _ _ ho)
  · intro s id delta op s2 hinv h
    unfold ProductModel.updateStock at h
    split at h
    · simp at h
    · rename_i p hp
      split at h
      · split at h
        · simp at h
        · cases h
          intro pid2 p2 hl
          refine productsInvariant_modify hinv ?_ pid2 p2 hl
          intro p0 hp0
          intro hnd
          by_cases h0 : p.stockQuantity + delta = 0 <;> simp [h0]
      · split at h
        · split at h
          · simp only [] at h
            split at h <;> simp at h
          · simp only [] at h
            split at h
            · simp at h
            · cases h
              intro pid2 p2 hl
              refine productsInvariant_modify hinv ?_ pid2 p2 hl
              intro p0 hp0
              intro hnd
              by_cases h0 : p.stockQuantity - delta = 0 <;> simp [h0]
        · simp at h

theorem lookupRow_singleton {α : Type} {k : Nat} {v : α} {id : Nat} {w : α}
    (h : lookupRow [(k, v)] id = some w) : w = v := by
  by_cases hk : id = k
  · simp [lookupRow, hk] at h
    exact h.symm
  · simp [lookupRow, hk] at h

/-- Witness for C4: cancelling the concrete pending 2-unit order
against the sold-out product produces a state whose every product row
satisfies the stock/status invariant. -/
theorem C4_stock_status_invariant_witness :
    productsInvariant (OrderModel.cancel oosState 1 none).state := by
  have hok : OrderModel.cancel oosState 1 none =
      OpResult.ok (OrderModel.cancel oosState 1 none).state := by
    with_unfolding_all decide
  refine (C4_stock_status_invariant.2.1) oosState 1 none _ ?_ ?_ ?_ hok
  · intro pid p hp
    have he := lookupRow_singleton hp
    subst he
    intro hnd
    with_unfolding_all decide
  · intro pid p hp
    have he := lookupRow_singleton hp
    subst he
    with_unfolding_all decide
  · intro oid o ho
    have he := lookupRow_singleton ho
    subst he
    with_unfolding_all decide

/-- Counterexample for C4 as stated: a `ProductModel.update` that
writes stockQuantity 0 and nothing else succeeds and leaves status
available, so immediately after this committed stock mutation the
status = out_of_stock ↔ stockQuantity = 0 invariant is broken. -/
theorem C4_counterexample :
    (ProductModel.update baseState 1 { stockQuantity := some 0 }).isOk = true ∧
    (lookupRow (ProductModel.update baseState 1
      { stockQuantity := some 0 }).state.products 1).map Product.stockQuantity = some 0 ∧
    (lookupRow (ProductModel.update baseState 1
      { stockQuantity := some 0 }).state.products 1).map Product.status =
      some ProductStatus.available := by
  with_unfolding_all decide

/-- C8 (amended): `OrderModel.create` rejects, with no state change, a
quantity that is zero (caught by the falsy required-fields guard) or
whose `parseInt` truncation is ≤ 0 — that is, all negative quantities
and fractions below 1.  A non-integer quantity above 1 is *not*
rejected: `parseInt` truncates it and the order is created with the
truncated quantity (see the counterexample); the route layer's Joi
schema (`customValidation.quantity`, `integer()`) is what rejects
such input before it reaches the model. -/
theorem C8_quantity_rejection (s : DBState) (uid pid : Nat) (q : ℚ)
    (notes : Option String) (f : CreateFaults) (h : jsParseInt q ≤ 0) :
    OrderModel.create s uid pid q notes f = CreateResult.error
      (if uid = 0 ∨ pid = 0 ∨ q = 0 then "User ID, Product ID, and quantity are required"
       else "Quantity must be a positive integer") s := by
  unfold OrderModel.create
  by_cases hf : uid = 0 ∨ pid = 0 ∨ q = 0
  · rw [if_pos hf, if_pos hf]
  · rw [if_neg hf, if_neg hf]
    simp only []
    rw [if_pos h]

/-- Witness for C8: the fractional quantity 1/2 truncates to 0 and is
rejected with the validation error, leaving the state unchanged. -/
theorem C8_quantity_rejection_witness :
    OrderModel.create baseState 1 1 (1/2) none noFaults =
      CreateResult.error "Quantity must be a positive integer" baseState := by
  have h := C8_quantity_rejection baseState 1 1 (1/2) none noFaults
    (by with_unfolding_all decide)
  rw [h]
  with_unfolding_all decide

/-- Counterexample for C8 as stated: the non-integer quantity 2.5 is
not rejected — `parseInt` truncates it to 2 and the order is created
with quantity 2. -/
theorem C8_counterexample :
    (OrderModel.create baseState 1 1 (5/2) none noFaults).isOk = true ∧
    (lookupRow (OrderModel.create baseState 1 1 (5/2) none noFaults).state.orders 1).map
      Order.quantity = some 2 := by
  with_unfolding_all decide

/-- C7: evaluation of `OrderModel.create` at the failing input — a
product priced at the binary64 value for the decimal 19.99, quantity
3.  The order is created, but the stored total_price, computed by the
code as one binary64 multiplication `unit_price * numericQuantity`,
differs from the exact product unit_price × quantity: the rounding of
binary floating-point arithmetic drifts, so the claimed exact-decimal
invariant total_price = unit_price × quantity does not hold on the
code. -/
theorem C7_total_price_drift :
    (OrderModel.create priceState 1 1 3 none noFaults).isOk = true ∧
    ((lookupRow (OrderModel.create priceState 1 1 3 none noFaults).state.orders 1).map
      (fun o => decide (o.totalPrice = o.unitPrice * (o.quantity : ℚ)))) = some false := by
  with_unfolding_all decide

/-- C1 (amended): when the INSERT (with its coupled trigger
decrement) or the COMMIT fails — any failure of the atomic unit of
work before the commit completes — `create` rolls back and the state
it reports is exactly the entry state: no order row and no stock
change remain.  A failure of the post-commit SELECT (step 7) is the
exception: the committed order and stock decrement stay (see the
counterexample). -/
theorem C1_rollback (s : DBState) (uid pid : Nat) (q : ℚ) (notes : Option String)
    (f : CreateFaults) (hl : f.lookupFails = false) (msg : String) (s2 : DBState)
    (h : OrderModel.create s uid pid q notes f = CreateResult.error msg s2) :
    s2 = s := by
  unfold OrderModel.create at h
  split at h
  · cases h
    rfl
  · simp only [] at h
    split at h
    · cases h
      rfl
    · split at h
      · cases h
        rfl
      · split at h
        · cases h
          rfl
        · split at h
          · cases h
            rfl
          · split at h
            · cases h
              rfl
            · split at h
              · cases h
                rfl
              · rw [hl] at h
                simp at h

/-- Witness for C1: with the INSERT failing at the concrete state,
`create` reports the entry state itself — rollback leaves no trace. -/
theorem C1_rollback_witness :
    (OrderModel.create baseState 1 1 2 none ⟨true, false, false⟩).state = baseState := by
  exact C1_rollback baseState 1 1 2 none ⟨true, false, false⟩ rfl
    "SQLITE_ERROR: INSERT failed"
    (OrderModel.create baseState 1 1 2 none ⟨true, false, false⟩).state
    (by with_unfolding_all decide)

/-- Counterexample for C1 as stated: when the post-commit SELECT
(`findByIdWithDetails`, issued inside the same try/catch after
COMMIT) fails, the call fails — yet the committed order row exists
and the product's stock is decremented from 5 to 3; the ROLLBACK the
catch block issues undoes nothing. -/
theorem C1_counterexample :
    (OrderModel.create baseState 1 1 2 none ⟨false, false, true⟩).isOk = false ∧
    (lookupRow (OrderModel.create baseState 1 1 2 none
      ⟨false, false, true⟩).state.orders 1).isSome = true ∧
    (lookupRow (OrderModel.create baseState 1 1 2 none
      ⟨false, false, true⟩).state.products 1).map Product.stockQuantity = some 3 := by
  with_unfolding_all decide
